import Mathlib

/-!
Verification of the skill-dispatch core of the `examples` repository.

The central artifact under `src/` is the `text-analyzer` agent skill
(`src/unnamed/part_011`): a skill descriptor with a JSON-Schema parameter
contract and an async handler that checks a `Deduplicator` before routing to
one of four analysis functions, records the run on success, and catches any
internal error.  The `Deduplicator` implementation (`../utils/dedupe`) and the
argument validator live in the external AnythingLLM/aibitat framework and are
not part of this repository's sources, so they are modelled from the
specification (§4.1, §4.2, §4.4), as marked on each such definition.  The
MCP server stubs (`src/anthropic-code-execution/servers/...`) are embedded
directly from their TypeScript sources, with the current time passed as an
explicit parameter.
-/

/-- A JSON-representable argument value, restricted to the primitive kinds
that appear in the repository's skill schemas and in the specification's
validation examples (string, number, boolean). -/
inductive JVal
  | str (s : String)
  | num (n : Int)
  | bool (b : Bool)
deriving DecidableEq, Repr

/-- An argument map as it crosses the dispatch boundary: an association list
of argument name to value, in caller insertion order (mirroring a JS object
literal). -/
abbrev Args := List (String × JVal)

/-- Ordering of argument entries by key, used for canonicalization. -/
def keyLE (x y : String × JVal) : Prop := x.1 ≤ y.1

/-- Strict version of `keyLE`, used to show canonical forms are unique when
the argument keys are distinct. -/
def keyLT (x y : String × JVal) : Prop := x.1 < y.1

instance : DecidableRel keyLE := fun x y => (inferInstance : Decidable (x.1 ≤ y.1))

instance : IsTotal (String × JVal) keyLE := ⟨fun a b => le_total a.1 b.1⟩

instance : IsTrans (String × JVal) keyLE := ⟨fun _ _ _ h1 h2 => le_trans h1 h2⟩

instance : IsAntisymm (String × JVal) keyLT :=
  ⟨fun _ _ h1 h2 => absurd (lt_trans h1 h2) (lt_irrefl _)⟩

/-- Modelled from the spec: the `Deduplicator` implementation
(`require("../utils/dedupe")`) is not part of this repository's sources.
§3/§4.2 specify that the composite key is the skill name plus the canonical
serialization of the arguments with object keys stably sorted; since that
serialization is injective on sorted association lists, the canonical form is
modelled as the key-sorted association list itself. -/
def canonicalize (args : Args) : Args := List.insertionSort keyLE args

/-- Modelled from the spec: the composite `(skillName, canonicalized
arguments)` key under which the Deduplicator tracks an execution (§3
"ExecutionRecord", §4.2). -/
def compositeKey (skill : String) (args : Args) : String × Args :=
  (skill, canonicalize args)

/-- Modelled from the spec: the session-scoped record set of a
`Deduplicator` — the composite keys tracked so far.  The skill code uses only
`isDuplicate`/`trackRun` (a key-presence test and a key insertion); cached
result texts are not consulted by any code under `src/`, so only keys are
stored. -/
abbrev DedupState := List (String × Args)

/-- Modelled from the spec: a fresh `Deduplicator` begins with zero records
(§4.2 "Session-scoped"). -/
def emptyDedup : DedupState := []

/-- Modelled from the spec: `isDuplicate(skillName, arguments)` computes the
composite key and reports whether a record with that key exists (§4.2). -/
def isDuplicate (skill : String) (args : Args) (st : DedupState) : Bool :=
  decide (compositeKey skill args ∈ st)

/-- Modelled from the spec: `trackRun(skillName, arguments)` records the
composite key in the session state (the usage made by the skill at
`src/unnamed/part_011` line 117). -/
def trackRun (skill : String) (args : Args) (st : DedupState) : DedupState :=
  compositeKey skill args :: st

lemma canonicalize_perm (args : Args) : List.Perm (canonicalize args) args :=
  List.perm_insertionSort _ _

lemma canonicalize_sorted (args : Args) : List.Sorted keyLE (canonicalize args) :=
  List.sorted_insertionSort _ _

/-- With pairwise-distinct keys, a key-sorted argument list is strictly
sorted on keys. -/
lemma pairwise_keyLT_of_sorted (l : Args) (hs : List.Sorted keyLE l)
    (hnd : (l.map Prod.fst).Nodup) : List.Pairwise keyLT l := by
  have hne : List.Pairwise (fun x y : String × JVal => x.1 ≠ y.1) l := by
    simpa [List.Nodup, List.pairwise_map] using hnd
  exact (hs.and hne).imp fun h => lt_of_le_of_ne h.1 h.2

lemma canonicalize_eq_of_perm (a b : Args) (hnd : (a.map Prod.fst).Nodup)
    (h : a.Perm b) : canonicalize a = canonicalize b := by
  have hndb : (b.map Prod.fst).Nodup := (h.map Prod.fst).nodup_iff.mp hnd
  have hnda : ((canonicalize a).map Prod.fst).Nodup :=
    ((canonicalize_perm a).map Prod.fst).nodup_iff.mpr hnd
  have hndb' : ((canonicalize b).map Prod.fst).Nodup :=
    ((canonicalize_perm b).map Prod.fst).nodup_iff.mpr hndb
  have hperm : List.Perm (canonicalize a) (canonicalize b) :=
    (canonicalize_perm a).trans (h.trans (canonicalize_perm b).symm)
  exact List.eq_of_perm_of_sorted hperm
    (pairwise_keyLT_of_sorted _ (canonicalize_sorted a) hnda)
    (pairwise_keyLT_of_sorted _ (canonicalize_sorted b) hndb')

lemma perm_of_canonicalize_eq (a b : Args) (h : canonicalize a = canonicalize b) :
    a.Perm b :=
  ((canonicalize_perm a).symm.trans (h ▸ List.Perm.refl _)).trans (canonicalize_perm b)

/-- C4: the Deduplicator's composite-key canonicalization is insensitive to
argument key insertion order but sensitive to value differences: a
permutation of a previously tracked argument map (with distinct keys) is
reported as a duplicate, while a map that binds some key to a different
value is not. -/
theorem dedup_key_order_insensitive_value_sensitive (skill : String) (a b : Args)
    (hnd : (a.map Prod.fst).Nodup) :
    (a.Perm b → isDuplicate skill b (trackRun skill a emptyDedup) = true) ∧
    (∀ k v w, (k, v) ∈ a → (k, w) ∈ b → v ≠ w → (b.map Prod.fst).Nodup →
      isDuplicate skill b (trackRun skill a emptyDedup) = false) := by
  constructor
  · intro hperm
    have hc : canonicalize b = canonicalize a :=
      (canonicalize_eq_of_perm a b hnd hperm).symm
    simp [isDuplicate, trackRun, emptyDedup, compositeKey, hc]
  · intro k v w hva hwb hvw hndb
    simp only [isDuplicate, trackRun, emptyDedup, compositeKey,
      List.mem_singleton, decide_eq_false_iff_not]
    intro hkey
    have hc : canonicalize b = canonicalize a := congrArg Prod.snd hkey
    have hperm : a.Perm b := perm_of_canonicalize_eq a b hc.symm
    have hvb : (k, v) ∈ b := hperm.mem_iff.mp hva
    have hne : List.Pairwise (fun x y : String × JVal => x.1 ≠ y.1) b := by
      simpa [List.Nodup, List.pairwise_map] using hndb
    have hsymm : Symmetric fun x y : String × JVal => x.1 ≠ y.1 :=
      fun _ _ h => h.symm
    have hneq : (k, v) ≠ (k, w) := fun h => hvw (congrArg Prod.snd h)
    exact (hne.forall hsymm hvb hwb hneq) rfl

/-- Witness for C4 at the specification's own P2/P3 examples:
`{a:1, b:2}` versus `{b:2, a:1}` is a duplicate, `{a:1}` versus `{a:2}`
is not. -/
theorem dedup_key_order_insensitive_value_sensitive_witness :
    isDuplicate "s" [("b", JVal.num 2), ("a", JVal.num 1)]
      (trackRun "s" [("a", JVal.num 1), ("b", JVal.num 2)] emptyDedup) = true ∧
    isDuplicate "s" [("a", JVal.num 2)]
      (trackRun "s" [("a", JVal.num 1)] emptyDedup) = false := by
  refine ⟨(dedup_key_order_insensitive_value_sensitive "s"
      [("a", JVal.num 1), ("b", JVal.num 2)] [("b", JVal.num 2), ("a", JVal.num 1)]
      (by decide)).1 (by decide),
    (dedup_key_order_insensitive_value_sensitive "s"
      [("a", JVal.num 1)] [("a", JVal.num 2)] (by decide)).2
      "a" (JVal.num 1) (JVal.num 2) (by decide) (by decide) (by decide) (by decide)⟩

/-- The four analysis methods the `text-analyzer` handler routes to
(`src/unnamed/part_011` lines 94-109).  Each is an async JS function that may
either return a result string or throw; a throw is modelled as
`Except.error` carrying `error.message`. -/
structure Analyzers where
  analyzeKeywords : String → Except String String
  analyzeSentiment : String → Except String String
  analyzeStatistics : String → Except String String
  analyzeReadability : String → Except String String

/-- The skill's registered name (`src/unnamed/part_011` line 16). -/
def taName : String := "text-analyzer"

/-- The argument object the handler passes to the Deduplicator:
`{ text, analysis_type }` in that literal insertion order
(`src/unnamed/part_011` lines 83 and 117). -/
def taArgs (text analysis_type : String) : Args :=
  [("text", JVal.str text), ("analysis_type", JVal.str analysis_type)]

/-- The fixed text returned when the Deduplicator reports a duplicate call
(`src/unnamed/part_011` line 88). -/
def dupMessage : String :=
  "This text has already been analyzed. The results are shown above."

/-- The prefix of the text returned by the handler's catch block
(`src/unnamed/part_011` line 124). -/
def errorIntro : String := "An error occurred while analyzing the text: "

/-- The `switch (analysis_type)` routing of the handler
(`src/unnamed/part_011` lines 94-109): `none` models the `default` branch
(no analysis function is invoked). -/
def runAnalysis (A : Analyzers) (analysis_type text : String) :
    Option (Except String String) :=
  match analysis_type with
  | "keywords" => some (A.analyzeKeywords text)
  | "sentiment" => some (A.analyzeSentiment text)
  | "statistics" => some (A.analyzeStatistics text)
  | "readability" => some (A.analyzeReadability text)
  | _ => none

/-- Outcome of one handler call: the Deduplicator state after the call, the
returned string, and an instrumentation counter giving how many times an
analysis function was invoked during the call (the spec's §8 "call counter
in a test handler"). -/
structure HandlerResult where
  state : DedupState
  text : String
  workCalls : Nat
deriving DecidableEq, Repr

/-- The `text-analyzer` handler (`src/unnamed/part_011` lines 79-126):
check `tracker.isDuplicate` first and short-circuit with `dupMessage`;
otherwise route through the `switch`; on a normal result, `tracker.trackRun`
then return the result; on a thrown error the surrounding `catch` returns
`errorIntro + error.message` without recording anything; the `default`
branch returns a fixed message without invoking any analysis. -/
def handler (A : Analyzers) (st : DedupState) (text analysis_type : String) :
    HandlerResult :=
  if isDuplicate taName (taArgs text analysis_type) st then
    { state := st, text := dupMessage, workCalls := 0 }
  else
    match runAnalysis A analysis_type text with
    | none => { state := st, text := "Invalid analysis type specified.", workCalls := 0 }
    | some (Except.ok result) =>
        { state := trackRun taName (taArgs text analysis_type) st
          text := result, workCalls := 1 }
    | some (Except.error msg) =>
        { state := st, text := errorIntro ++ msg, workCalls := 1 }

/-- An `Analyzers` instance whose every analysis throws; used to exercise the
handler's catch path. -/
def failingAnalyzers : Analyzers :=
  { analyzeKeywords := fun _ => Except.error "boom"
    analyzeSentiment := fun _ => Except.error "boom"
    analyzeStatistics := fun _ => Except.error "boom"
    analyzeReadability := fun _ => Except.error "boom" }

lemma isDuplicate_after_trackRun (skill : String) (args : Args) (st : DedupState) :
    isDuplicate skill args (trackRun skill args st) = true := by
  simp [isDuplicate, trackRun]

lemma handler_of_dup (A : Analyzers) (st : DedupState) (text analysis_type : String)
    (hdup : isDuplicate taName (taArgs text analysis_type) st = true) :
    handler A st text analysis_type =
      { state := st, text := dupMessage, workCalls := 0 } := by
  simp [handler, hdup]

lemma handler_of_ok (A : Analyzers) (st : DedupState) (text analysis_type result : String)
    (hdup : isDuplicate taName (taArgs text analysis_type) st = false)
    (hok : runAnalysis A analysis_type text = some (Except.ok result)) :
    handler A st text analysis_type =
      { state := trackRun taName (taArgs text analysis_type) st
        text := result, workCalls := 1 } := by
  simp [handler, hdup, hok]

/-- C3: the deduplication check precedes handler execution: whenever the
`(skillName, arguments)` composite key is already tracked, the handler
returns the duplicate notice immediately and no analysis function
(`analyzeKeywords`, `analyzeSentiment`, `analyzeStatistics`,
`analyzeReadability`) is invoked on that call. -/
theorem duplicate_check_precedes_work (A : Analyzers) (st : DedupState)
    (text analysis_type : String)
    (h : isDuplicate taName (taArgs text analysis_type) st = true) :
    handler A st text analysis_type =
      { state := st, text := dupMessage, workCalls := 0 } := by
  simp [handler, h]

/-- Witness for C3: with `("hello", "keywords")` already tracked, the call is
short-circuited with zero analysis invocations. -/
theorem duplicate_check_precedes_work_witness :
    isDuplicate taName (taArgs "hello" "keywords")
      (trackRun taName (taArgs "hello" "keywords") emptyDedup) = true ∧
    handler failingAnalyzers
      (trackRun taName (taArgs "hello" "keywords") emptyDedup) "hello" "keywords" =
      { state := trackRun taName (taArgs "hello" "keywords") emptyDedup
        text := dupMessage, workCalls := 0 } :=
  ⟨isDuplicate_after_trackRun _ _ _,
    duplicate_check_precedes_work failingAnalyzers _ "hello" "keywords"
      (isDuplicate_after_trackRun _ _ _)⟩

/-- C2: a failed handler execution stores nothing in the Deduplicator: if the
routed analysis throws, the state after the call equals the state before it
(`trackRun` is reached only on the success path), and a second dispatch with
identical arguments invokes the analysis again. -/
theorem failed_handler_is_retryable (A : Analyzers) (st : DedupState)
    (text analysis_type msg : String)
    (hdup : isDuplicate taName (taArgs text analysis_type) st = false)
    (herr : runAnalysis A analysis_type text = some (Except.error msg)) :
    (handler A st text analysis_type).state = st ∧
    (handler A st text analysis_type).workCalls = 1 ∧
    (handler A (handler A st text analysis_type).state text analysis_type).workCalls = 1 := by
  simp [handler, hdup, herr]

/-- Witness for C2: a throwing analyzer leaves the Deduplicator empty and the
retry invokes the analysis again. -/
theorem failed_handler_is_retryable_witness :
    isDuplicate taName (taArgs "hello" "keywords") emptyDedup = false ∧
    ((handler failingAnalyzers emptyDedup "hello" "keywords").state = emptyDedup ∧
      (handler failingAnalyzers emptyDedup "hello" "keywords").workCalls = 1 ∧
      (handler failingAnalyzers
        (handler failingAnalyzers emptyDedup "hello" "keywords").state
        "hello" "keywords").workCalls = 1) :=
  ⟨by decide,
    failed_handler_is_retryable failingAnalyzers emptyDedup "hello" "keywords" "boom"
      (by decide) rfl⟩

/-- C6: an error raised inside an analysis function never crosses the
handler's boundary: the handler returns normally with the string
`"An error occurred while analyzing the text: "` followed by the error
message. -/
theorem handler_converts_errors_to_text (A : Analyzers) (st : DedupState)
    (text analysis_type msg : String)
    (hdup : isDuplicate taName (taArgs text analysis_type) st = false)
    (herr : runAnalysis A analysis_type text = some (Except.error msg)) :
    (handler A st text analysis_type).text = errorIntro ++ msg := by
  simp [handler, hdup, herr]

/-- Witness for C6: the throwing analyzer's message is wrapped in the catch
block's fixed prefix. -/
theorem handler_converts_errors_to_text_witness :
    isDuplicate taName (taArgs "world" "sentiment") emptyDedup = false ∧
    (handler failingAnalyzers emptyDedup "world" "sentiment").text =
      errorIntro ++ "boom" :=
  ⟨by decide,
    handler_converts_errors_to_text failingAnalyzers emptyDedup "world" "sentiment"
      "boom" (by decide) rfl⟩

/-- C1 (amended): dispatching the same `{text, analysis_type}` twice performs
the analysis exactly once, but the two calls do not return the same text:
the first returns the analysis result and the second returns the fixed
duplicate notice. -/
theorem second_dispatch_returns_notice (A : Analyzers) (st : DedupState)
    (text analysis_type result : String)
    (hdup : isDuplicate taName (taArgs text analysis_type) st = false)
    (hok : runAnalysis A analysis_type text = some (Except.ok result)) :
    handler A st text analysis_type =
      { state := trackRun taName (taArgs text analysis_type) st
        text := result, workCalls := 1 } ∧
    handler A (trackRun taName (taArgs text analysis_type) st) text analysis_type =
      { state := trackRun taName (taArgs text analysis_type) st
        text := dupMessage, workCalls := 0 } := by
  refine ⟨by simp [handler, hdup, hok], ?_⟩
  simp [handler, isDuplicate_after_trackRun]

/-- A JS `\w` word character: `[A-Za-z0-9_]`. -/
def isWordChar (c : Char) : Bool := c.isAlpha || c.isDigit || c == '_'

/-- A character matched by the statistics/readability sentence regex
`[.!?]`. -/
def isSentenceChar (c : Char) : Bool := c == '.' || c == '!' || c == '?'

/-- Helper for `runsOf`: scan the text left to right, `acc` holding the
(reversed) run of `p`-characters currently open. -/
def runsAux (p : Char → Bool) : List Char → List Char → List String
  | [], acc => if acc.isEmpty then [] else [String.mk acc.reverse]
  | c :: cs, acc =>
    if p c then
      runsAux p cs (c :: acc)
    else if acc.isEmpty then
      runsAux p cs []
    else
      String.mk acc.reverse :: runsAux p cs []

/-- The maximal runs of characters satisfying `p`, in order: the result of a
global regex match such as `/\b[\w]+\b/g` or `/[.!?]+/g` (`null` becoming the
empty list). -/
def runsOf (p : Char → Bool) (l : List Char) : List String := runsAux p l []

/-- JS `String.prototype.toLowerCase` restricted to its ASCII action, which
covers every character class the analysis functions inspect. -/
def jsToLower (s : String) : String := String.mk (s.toList.map Char.toLower)

/-- The stop set of `analyzeKeywords` (`src/unnamed/part_011` lines
135-155). -/
def commonWords : List String :=
  ["the", "a", "an", "and", "or", "but", "in", "on", "at", "to", "for", "of",
   "with", "is", "are", "was", "were", "be", "been"]

/-- The keyword filter `!commonWords.has(word) && word.length > 3`
(`src/unnamed/part_011` line 160). -/
def keywordFilter (w : String) : Bool :=
  decide (w ∉ commonWords) && decide (3 < w.length)

/-- One step of `wordFreq[word] = (wordFreq[word] || 0) + 1` on an
insertion-ordered association list (a JS object with non-numeric string
keys preserves insertion order). -/
def bump (freq : List (String × Nat)) (w : String) : List (String × Nat) :=
  match freq with
  | [] => [(w, 1)]
  | (k, n) :: rest => if k = w then (k, n + 1) :: rest else (k, n) :: bump rest w

/-- The `wordFreq` object of `analyzeKeywords` (`src/unnamed/part_011` lines
157-163): lowercase, split into `\w` runs, filter, count. -/
def wordFreq (text : String) : List (String × Nat) :=
  ((runsOf isWordChar (jsToLower text).toList).filter keywordFilter).foldl bump []

/-- The comparator `(a, b) => b[1] - a[1]`: sort entries by non-increasing
count. -/
def byCountDesc (x y : String × Nat) : Prop := y.2 ≤ x.2

instance : DecidableRel byCountDesc := fun x y => (inferInstance : Decidable (y.2 ≤ x.2))

instance : IsTotal (String × Nat) byCountDesc := ⟨fun a b => le_total b.2 a.2⟩

instance : IsTrans (String × Nat) byCountDesc := ⟨fun _ _ _ h1 h2 => le_trans h2 h1⟩

/-- The `topKeywords` entry list of `analyzeKeywords` before formatting
(`src/unnamed/part_011` lines 166-168): sort by frequency, keep the first
ten. -/
def topKeywordEntries (text : String) : List (String × Nat) :=
  (List.insertionSort byCountDesc (wordFreq text)).take 10

/-- `analyzeKeywords` (`src/unnamed/part_011` lines 131-172). -/
def analyzeKeywords (text : String) : String :=
  "**Top Keywords:** " ++ String.intercalate ", "
    ((topKeywordEntries text).map fun x => x.1 ++ " (" ++ toString x.2 ++ ")")

/-- Non-overlapping leftmost occurrence count: the length of
`text.match(new RegExp(word, "g")) || []` for a pattern free of regex
metacharacters (every sentiment word is).  The empty pattern (which does not
occur in the source) counts zero.  The recursion is driven by a fuel
argument initialised to the text length, which each step strictly exceeds
the remaining text, so the fuel never runs out. -/
def countOccursFuel (pat : List Char) : Nat → List Char → Nat
  | 0, _ => 0
  | _ + 1, [] => 0
  | fuel + 1, c :: rest =>
    if pat.isPrefixOf (c :: rest) && !pat.isEmpty then
      1 + countOccursFuel pat fuel (List.drop (pat.length - 1) rest)
    else
      countOccursFuel pat fuel rest

def countOccurs (pat s : List Char) : Nat := countOccursFuel pat s.length s

/-- The positive sentiment word set (`src/unnamed/part_011` lines 178-189). -/
def positiveWords : List String :=
  ["good", "great", "excellent", "amazing", "wonderful", "fantastic", "love",
   "best", "happy", "perfect"]

/-- The negative sentiment word set (`src/unnamed/part_011` lines 190-201). -/
def negativeWords : List String :=
  ["bad", "terrible", "awful", "horrible", "worst", "hate", "disappointing",
   "sad", "angry", "poor"]

/-- `analyzeSentiment` (`src/unnamed/part_011` lines 177-225). -/
def analyzeSentiment (text : String) : String :=
  let lowerText := jsToLower text
  let positiveCount := (positiveWords.map fun w => countOccurs w.toList lowerText.toList).sum
  let negativeCount := (negativeWords.map fun w => countOccurs w.toList lowerText.toList).sum
  let sentiment :=
    if positiveCount > negativeCount then "Positive"
    else if negativeCount > positiveCount then "Negative"
    else "Neutral"
  "**Sentiment:** " ++ sentiment ++ " (Positive: " ++ toString positiveCount ++
    ", Negative: " ++ toString negativeCount ++ ")"

/-- The `words` count of `analyzeStatistics`:
`(text.match(/\b[\w]+\b/g) || []).length` (`src/unnamed/part_011` line 231). -/
def statsWords (text : String) : Nat := (runsOf isWordChar text.toList).length

/-- The raw sentence-run count of `analyzeStatistics`:
`(text.match(/[.!?]+/g) || []).length` (`src/unnamed/part_011` line 232). -/
def statsSentenceMatches (text : String) : Nat :=
  (runsOf isSentenceChar text.toList).length

/-- The `sentences` value of `analyzeStatistics`, with the `|| 1` fallback
(`src/unnamed/part_011` line 232).  This is the divisor of
`avgWordsPerSentence = (words / sentences).toFixed(1)`; the rendered average
itself is IEEE-754 arithmetic and is not modelled. -/
def statsSentences (text : String) : Nat :=
  if statsSentenceMatches text = 0 then 1 else statsSentenceMatches text

/-- C9: the sentence count used as divisor in `analyzeStatistics` is always
at least one — the `|| 1` fallback makes the `avgWordsPerSentence` divisor
nonzero for every input text, including text with no `.`, `!` or `?`. -/
theorem statistics_sentences_never_zero (text : String) :
    1 ≤ statsSentences text ∧ statsSentences text ≠ 0 := by
  unfold statsSentences
  split <;> omega

lemma mem_bump (freq : List (String × Nat)) (w : String) (x : String × Nat)
    (hx : x ∈ bump freq w) : x.1 = w ∨ x.1 ∈ freq.map Prod.fst := by
  induction freq with
  | nil =>
    simp only [bump, List.mem_singleton] at hx
    exact Or.inl (by rw [hx])
  | cons y rest ih =>
    obtain ⟨k, n⟩ := y
    simp only [bump] at hx
    by_cases h : k = w
    · rw [if_pos h] at hx
      rcases List.mem_cons.mp hx with h1 | h1
      · exact Or.inl (by rw [h1, h])
      · exact Or.inr (by simp [List.mem_cons_of_mem, List.mem_map]; right; exact ⟨x.2, h1⟩)
    · rw [if_neg h] at hx
      rcases List.mem_cons.mp hx with h1 | h1
      · exact Or.inr (by rw [h1]; simp)
      · rcases ih h1 with h2 | h2
        · exact Or.inl h2
        · exact Or.inr (by simp only [List.map_cons, List.mem_cons]; exact Or.inr h2)

lemma foldl_bump_key_prop (P : String → Prop) (ws : List String) :
    ∀ acc : List (String × Nat), (∀ x ∈ acc, P x.1) → (∀ w ∈ ws, P w) →
      ∀ x ∈ ws.foldl bump acc, P x.1 := by
  induction ws with
  | nil => intro acc hacc _ x hx; exact hacc x hx
  | cons w ws ih =>
    intro acc hacc hws x hx
    simp only [List.foldl_cons] at hx
    refine ih (bump acc w) ?_ (fun u hu => hws u (List.mem_cons_of_mem _ hu)) x hx
    intro y hy
    rcases mem_bump acc w y hy with h | h
    · rw [h]; exact hws w (List.mem_cons_self _ _)
    · rcases List.mem_map.mp h with ⟨z, hz, hz1⟩
      rw [← hz1]; exact hacc z hz

lemma wordFreq_key_filtered (text : String) (x : String × Nat)
    (hx : x ∈ wordFreq text) : keywordFilter x.1 = true := by
  refine foldl_bump_key_prop (fun w => keywordFilter w = true) _ [] (by simp) ?_ x hx
  intro w hw
  exact List.of_mem_filter hw

/-- C10: `analyzeKeywords` produces at most ten keyword entries, ordered by
non-increasing occurrence count, and every entry's word is outside the
common-word stop set and longer than three characters; the returned string
is the formatted rendering of exactly those entries. -/
theorem analyzeKeywords_top_ten (text : String) :
    (topKeywordEntries text).length ≤ 10 ∧
    List.Pairwise byCountDesc (topKeywordEntries text) ∧
    (∀ x ∈ topKeywordEntries text, x.1 ∉ commonWords ∧ 3 < x.1.length) ∧
    analyzeKeywords text = "**Top Keywords:** " ++ String.intercalate ", "
      ((topKeywordEntries text).map fun x => x.1 ++ " (" ++ toString x.2 ++ ")") := by
  refine ⟨List.length_take_le _ _, ?_, ?_, rfl⟩
  · exact List.Pairwise.sublist (List.take_sublist _ _)
      (List.sorted_insertionSort byCountDesc (wordFreq text))
  · intro x hx
    have hx1 : x ∈ List.insertionSort byCountDesc (wordFreq text) :=
      List.mem_of_mem_take hx
    have hx2 : x ∈ wordFreq text := (List.mem_insertionSort _).mp hx1
    have hkf := wordFreq_key_filtered text x hx2
    simp only [keywordFilter, Bool.and_eq_true, decide_eq_true_eq] at hkf
    exact hkf

/-- The concrete `text-analyzer` analysis methods.  `analyzeKeywords` and
`analyzeSentiment` are embedded in full and never throw.  The
`analyzeStatistics`/`analyzeReadability` entries render IEEE-754 division via
`toFixed`, which is outside this embedding; they are marked as unmodelled and
no theorem depends on them. -/
def taAnalyzers : Analyzers :=
  { analyzeKeywords := fun text => Except.ok (analyzeKeywords text)
    analyzeSentiment := fun text => Except.ok (analyzeSentiment text)
    analyzeStatistics := fun _ => Except.error "IEEE-754 formatting not modelled"
    analyzeReadability := fun _ => Except.error "IEEE-754 formatting not modelled" }

/-- Counterexample to C1 as stated: dispatching
`{text: "alpha beta alpha", analysis_type: "keywords"}` twice does not yield
the same text — the first call returns the keyword analysis and the second
returns the fixed duplicate notice. -/
theorem idempotent_dispatch_counterexample :
    (handler taAnalyzers emptyDedup "alpha beta alpha" "keywords").text ≠
      (handler taAnalyzers
        (handler taAnalyzers emptyDedup "alpha beta alpha" "keywords").state
        "alpha beta alpha" "keywords").text := by
  have h1 : handler taAnalyzers emptyDedup "alpha beta alpha" "keywords" =
      { state := trackRun taName (taArgs "alpha beta alpha" "keywords") emptyDedup
        text := analyzeKeywords "alpha beta alpha", workCalls := 1 } :=
    handler_of_ok _ _ _ _ _ (by decide) rfl
  have h2 : handler taAnalyzers
      (trackRun taName (taArgs "alpha beta alpha" "keywords") emptyDedup)
      "alpha beta alpha" "keywords" =
      { state := trackRun taName (taArgs "alpha beta alpha" "keywords") emptyDedup
        text := dupMessage, workCalls := 0 } :=
    handler_of_dup _ _ _ _ (isDuplicate_after_trackRun _ _ _)
  rw [h1]
  rw [h2]
  decide

/-- Witness for the amended C1 at the concrete keywords dispatch. -/
theorem second_dispatch_returns_notice_witness :
    isDuplicate taName (taArgs "alpha beta alpha" "keywords") emptyDedup = false ∧
    (handler taAnalyzers emptyDedup "alpha beta alpha" "keywords" =
      { state := trackRun taName (taArgs "alpha beta alpha" "keywords") emptyDedup
        text := "**Top Keywords:** alpha (2), beta (1)", workCalls := 1 } ∧
     handler taAnalyzers
        (trackRun taName (taArgs "alpha beta alpha" "keywords") emptyDedup)
        "alpha beta alpha" "keywords" =
      { state := trackRun taName (taArgs "alpha beta alpha" "keywords") emptyDedup
        text := dupMessage, workCalls := 0 }) :=
  ⟨by decide,
    second_dispatch_returns_notice taAnalyzers emptyDedup "alpha beta alpha"
      "keywords" "**Top Keywords:** alpha (2), beta (1)" (by decide)
      (by
        have h : analyzeKeywords "alpha beta alpha" =
            "**Top Keywords:** alpha (2), beta (1)" := by decide
        simp [runAnalysis, taAnalyzers, h])⟩

/-- Modelled from the spec: the primitive parameter kinds of §3
`parameterSchema` (arrays and nested objects do not occur in the repository's
schemas and are omitted). -/
inductive ParamKind
  | string
  | number
  | boolean
  | stringEnum (allowed : List String)
deriving DecidableEq, Repr

/-- Modelled from the spec: a §3 parameter schema — per-parameter name and
kind, the required-name list, and whether additional properties are allowed.
Numeric min/max bounds (§4.1 rule 5) do not occur in the repository's schemas
and are omitted. -/
structure ParamSchema where
  properties : List (String × ParamKind)
  required : List String
  additionalProperties : Bool

/-- Modelled from the spec: the §4.1 validation failures, carrying the name
of the offending parameter. -/
inductive ValidationError
  | missingParameter (name : String)
  | unknownParameter (name : String)
  | typeMismatch (name : String)
  | invalidEnumValue (name : String)
deriving DecidableEq, Repr

/-- Whether a runtime value's kind matches a declared kind (§4.1 rule 3). -/
def kindMatches : ParamKind → JVal → Bool
  | ParamKind.string, JVal.str _ => true
  | ParamKind.stringEnum _, JVal.str _ => true
  | ParamKind.number, JVal.num _ => true
  | ParamKind.boolean, JVal.bool _ => true
  | _, _ => false

/-- Whether an enumerated parameter's value is in the allowed set (§4.1 rule
4; vacuously true for non-enumerated kinds). -/
def enumOk : ParamKind → JVal → Bool
  | ParamKind.stringEnum allowed, JVal.str s => allowed.contains s
  | _, _ => true

/-- Modelled from the spec: the §4.1 Schema Validator, applying the rules in
the specified order with the first failure winning: (1) every required name
present, (2) no key outside the schema unless additional properties are
allowed, (3) kind match, (4) enumeration membership. -/
def validateArgs (schema : ParamSchema) (args : Args) : Except ValidationError Args :=
  match schema.required.find? (fun r => !(args.any (fun kv => kv.1 == r))) with
  | some r => Except.error (ValidationError.missingParameter r)
  | none =>
  match (if schema.additionalProperties then none
         else args.find? (fun kv => !(schema.properties.any (fun p => p.1 == kv.1)))) with
  | some kv => Except.error (ValidationError.unknownParameter kv.1)
  | none =>
  match args.find? (fun kv =>
      match schema.properties.lookup kv.1 with
      | none => false
      | some k => !(kindMatches k kv.2)) with
  | some kv => Except.error (ValidationError.typeMismatch kv.1)
  | none =>
  match args.find? (fun kv =>
      match schema.properties.lookup kv.1 with
      | none => false
      | some k => !(enumOk k kv.2)) with
  | some kv => Except.error (ValidationError.invalidEnumValue kv.1)
  | none => Except.ok args

/-- The `text-analyzer` parameter schema (`src/unnamed/part_011` lines
59-76): `text` a string, `analysis_type` an enumerated string, both
required, `additionalProperties: false`. -/
def taSchema : ParamSchema :=
  { properties :=
      [("text", ParamKind.string),
       ("analysis_type",
        ParamKind.stringEnum ["keywords", "sentiment", "statistics", "readability"])]
    required := ["text", "analysis_type"]
    additionalProperties := false }

/-- Modelled from the spec: the §4.4 dispatch failure kinds. -/
inductive FailureKind
  | skillNotFound
  | validationFailed
  | handlerError
  | handlerTimeout
deriving DecidableEq, Repr

/-- Modelled from the spec: the §4.4 `DispatchOutcome`. -/
inductive DispatchOutcome
  | success (text : String)
  | failure (kind : FailureKind) (message : String)
deriving DecidableEq, Repr

/-- The validator failure rendered as the outcome message, in the
specification's own notation (§4.1, §8 example scenario). -/
def describeError : ValidationError → String
  | ValidationError.missingParameter n => "MissingParameter(" ++ n ++ ")"
  | ValidationError.unknownParameter n => "UnknownParameter(" ++ n ++ ")"
  | ValidationError.typeMismatch n => "TypeMismatch(" ++ n ++ ")"
  | ValidationError.invalidEnumValue n => "InvalidEnumValue(" ++ n ++ ")"

/-- The string content of an optional argument value, with the handler's
destructuring default (`src/unnamed/part_011` line 79). -/
def getStrD : Option JVal → String → String
  | some (JVal.str s), _ => s
  | _, d => d

/-- Modelled from the spec: the §4.4 Dispatcher restricted to the registered
`text-analyzer` skill — validate against the schema, then run the (source)
handler, which itself performs the §4.4 step-3 deduplication check.  Returns
the resulting Deduplicator state, the outcome, and the number of analysis
invocations. -/
def dispatchTA (A : Analyzers) (st : DedupState) (args : Args) :
    DedupState × DispatchOutcome × Nat :=
  match validateArgs taSchema args with
  | Except.error e =>
      (st, DispatchOutcome.failure FailureKind.validationFailed (describeError e), 0)
  | Except.ok norm =>
      let r := handler A st (getStrD (norm.lookup "text") "")
        (getStrD (norm.lookup "analysis_type") "keywords")
      (r.state, DispatchOutcome.success r.text, r.workCalls)

lemma validateArgs_unknown_error (schema : ParamSchema) (args : Args) (k : String)
    (v : JVal) (hin : (k, v) ∈ args) (hund : ∀ p ∈ schema.properties, p.1 ≠ k)
    (hadd : schema.additionalProperties = false) :
    (∃ e, validateArgs schema args = Except.error e) ∧
    ((∀ r ∈ schema.required, ∃ w, (r, w) ∈ args) →
      ∃ u, (∀ p ∈ schema.properties, p.1 ≠ u) ∧
        validateArgs schema args = Except.error (ValidationError.unknownParameter u)) := by
  have hpk : (fun kv : String × JVal =>
      !(schema.properties.any (fun p => p.1 == kv.1))) (k, v) = true := by
    simp only [Bool.not_eq_true', List.any_eq_false]
    intro p hp
    simpa using hund p hp
  cases hmiss : schema.required.find? (fun r => !(args.any (fun kv => kv.1 == r))) with
  | some r =>
    refine ⟨⟨ValidationError.missingParameter r, by simp [validateArgs, hmiss]⟩, ?_⟩
    intro hreq
    exfalso
    have hr := List.find?_some hmiss
    have hrmem := List.mem_of_find?_eq_some hmiss
    simp only [Bool.not_eq_true', List.any_eq_false] at hr
    obtain ⟨w, hw⟩ := hreq r hrmem
    simpa using hr (r, w) hw
  | none =>
    have hfind : ∃ kv, args.find? (fun kv : String × JVal =>
        !(schema.properties.any (fun p => p.1 == kv.1))) = some kv := by
      have : (args.find? (fun kv : String × JVal =>
          !(schema.properties.any (fun p => p.1 == kv.1)))).isSome := by
        rw [List.find?_isSome]
        exact ⟨(k, v), hin, hpk⟩
      exact Option.isSome_iff_exists.mp this
    obtain ⟨kv, hkv⟩ := hfind
    have hkvp := List.find?_some hkv
    simp only [Bool.not_eq_true', List.any_eq_false] at hkvp
    have hres : validateArgs schema args =
        Except.error (ValidationError.unknownParameter kv.1) := by
      simp [validateArgs, hmiss, hadd, hkv]
    exact ⟨⟨_, hres⟩, fun _ => ⟨kv.1, fun p hp => by simpa using hkvp p hp, hres⟩⟩

/-- C5: validation rejects unknown argument keys: any argument map holding a
key outside the `text-analyzer` schema (which declares
`additionalProperties: false`) makes dispatch fail with `ValidationFailed`
and zero analysis invocations, and — when the required parameters are
present, so that the earlier §4.1 rule does not fire first — the failure
message names an unknown parameter. -/
theorem unknown_key_rejected_before_handler (A : Analyzers) (st : DedupState)
    (args : Args) (k : String) (v : JVal) (hin : (k, v) ∈ args)
    (hund : ∀ p ∈ taSchema.properties, p.1 ≠ k) :
    (∃ e, dispatchTA A st args =
      (st, DispatchOutcome.failure FailureKind.validationFailed e, 0)) ∧
    ((∀ r ∈ taSchema.required, ∃ w, (r, w) ∈ args) →
      ∃ u, (∀ p ∈ taSchema.properties, p.1 ≠ u) ∧
        dispatchTA A st args =
          (st, DispatchOutcome.failure FailureKind.validationFailed
            ("UnknownParameter(" ++ u ++ ")"), 0)) := by
  obtain ⟨⟨e, he⟩, hnamed⟩ := validateArgs_unknown_error taSchema args k v hin hund rfl
  refine ⟨⟨describeError e, by simp [dispatchTA, he]⟩, ?_⟩
  intro hreq
  obtain ⟨u, hu, hres⟩ := hnamed hreq
  exact ⟨u, hu, by simp [dispatchTA, hres, describeError]⟩

/-- Witness for C5 at the specification's §8 example
`{text: "hi", extra: 1}` style call (with the required `analysis_type` also
present): the extra key is named and the handler never runs. -/
theorem unknown_key_rejected_before_handler_witness :
    (("extra", JVal.num 1) ∈
        ([("text", JVal.str "hi"), ("analysis_type", JVal.str "keywords"),
          ("extra", JVal.num 1)] : Args) ∧
      ∀ p ∈ taSchema.properties, p.1 ≠ "extra") ∧
    ∃ u, (∀ p ∈ taSchema.properties, p.1 ≠ u) ∧
      dispatchTA failingAnalyzers emptyDedup
        [("text", JVal.str "hi"), ("analysis_type", JVal.str "keywords"),
         ("extra", JVal.num 1)] =
        (emptyDedup, DispatchOutcome.failure FailureKind.validationFailed
          ("UnknownParameter(" ++ u ++ ")"), 0) :=
  ⟨⟨by decide, by decide⟩,
    (unknown_key_rejected_before_handler failingAnalyzers emptyDedup
      [("text", JVal.str "hi"), ("analysis_type", JVal.str "keywords"),
       ("extra", JVal.num 1)] "extra" (JVal.num 1) (by decide) (by decide)).2
      (by
        intro r hr
        simp only [taSchema, List.mem_cons, List.not_mem_nil, or_false] at hr
        rcases hr with rfl | rfl
        · exact ⟨JVal.str "hi", by simp⟩
        · exact ⟨JVal.str "keywords", by simp⟩)⟩

/-- A record returned by the simulated Salesforce `queryRecords`
(`src/unnamed/part_007`). -/
structure SFRecord where
  id : String
  objectType : String
  name : String
  createdAt : String
deriving DecidableEq, Repr

/-- `queryRecords` (`src/unnamed/part_007` lines 7-29): ignores the filter
and returns two fixed mock records echoing the requested object type.  The
`new Date().toISOString()` timestamp is passed in as `nowIso`. -/
def queryRecords (objectType : String) (filter : Option String) (nowIso : String) :
    List SFRecord :=
  let _ := filter
  [{ id := "rec_001", objectType := objectType, name := "Record 1", createdAt := nowIso },
   { id := "rec_002", objectType := objectType, name := "Record 2", createdAt := nowIso }]

/-- The object returned by the simulated Google Drive `createDocument`
(`src/anthropic-code-execution/servers/google-drive/createDocument.ts`). -/
structure CreatedDocument where
  id : String
  title : String
  content : String
  createdAt : String
  status : String
deriving DecidableEq, Repr

/-- `createDocument` (`createDocument.ts` lines 7-21): a fixed-shape mock
echoing its inputs, with `id = "doc_" + Date.now()` (the millisecond clock
passed in as `nowMs`). -/
def createDocument (title content : String) (nowMs : Nat) (nowIso : String) :
    CreatedDocument :=
  { id := "doc_" ++ toString nowMs, title := title, content := content
    createdAt := nowIso, status := "success" }

/-- The object returned by the simulated Google Drive `updateDocument`
(`src/anthropic-code-execution/servers/google-drive/updateDocument.ts`). -/
structure UpdatedDocument where
  id : String
  title : String
  content : String
  modifiedAt : String
  status : String
deriving DecidableEq, Repr

/-- JS `x || d` for `x : string | undefined`: the only falsy string is the
empty string, so both `undefined` and `""` fall back to the default. -/
def jsOrElse (x : Option String) (d : String) : String :=
  match x with
  | none => d
  | some s => if s = "" then d else s

/-- `updateDocument` (`updateDocument.ts` lines 8-24): echoes the document
id, applies `title || "Unchanged"` and `content || "Unchanged"`, and reports
status `"success"`. -/
def updateDocument (documentId : String) (title content : Option String)
    (nowIso : String) : UpdatedDocument :=
  { id := documentId, title := jsOrElse title "Unchanged"
    content := jsOrElse content "Unchanged", modifiedAt := nowIso
    status := "success" }

/-- C7: the MCP server stubs return static mocks: `queryRecords` always
returns exactly the two records `rec_001`/`rec_002` echoing the requested
object type, independently of the filter; `createDocument` and
`updateDocument` return fixed-shape objects with status `"success"` echoing
their inputs. -/
theorem mcp_stubs_return_static_mocks (objectType nowIso title content docId : String)
    (filter filter2 t c : Option String) (nowMs : Nat) :
    (queryRecords objectType filter nowIso).length = 2 ∧
    (queryRecords objectType filter nowIso).map SFRecord.id = ["rec_001", "rec_002"] ∧
    (∀ r ∈ queryRecords objectType filter nowIso, r.objectType = objectType) ∧
    queryRecords objectType filter nowIso = queryRecords objectType filter2 nowIso ∧
    (createDocument title content nowMs nowIso).status = "success" ∧
    (createDocument title content nowMs nowIso).title = title ∧
    (createDocument title content nowMs nowIso).content = content ∧
    (updateDocument docId t c nowIso).status = "success" ∧
    (updateDocument docId t c nowIso).id = docId := by
  refine ⟨rfl, rfl, ?_, rfl, rfl, rfl, rfl, rfl, rfl⟩
  intro r hr
  rcases List.mem_cons.mp hr with h | h
  · rw [h]
  · rcases List.mem_cons.mp h with h2 | h2
    · rw [h2]
    · exact absurd h2 (List.not_mem_nil r)

/-- C8: in `updateDocument` an explicitly supplied empty string is
indistinguishable from an absent argument: both produce the `"Unchanged"`
fallback for the title, and likewise for the content. -/
theorem updateDocument_empty_string_is_unchanged (docId nowIso : String)
    (t c : Option String) :
    (updateDocument docId (some "") c nowIso).title = "Unchanged" ∧
    (updateDocument docId none c nowIso).title = "Unchanged" ∧
    (updateDocument docId t (some "") nowIso).content = "Unchanged" ∧
    (updateDocument docId t none nowIso).content = "Unchanged" := by
  refine ⟨rfl, rfl, rfl, rfl⟩
